import Mathlib

set_option maxRecDepth 8000

/-!
Shallow embedding of the CamblissNews client core: the premium status
resolver (the usePremium hook), the mini audio player (MiniPlayer), and
the article submission workflow (AddNewsModal).  Each definition mirrors
the corresponding function of the source; string handling is modelled
over lists of characters so that every definition evaluates inside the
kernel.
-/

/- ===== Character-list models of the JavaScript string operations ===== -/

/-- Model of the JavaScript String.prototype.trim call: drop whitespace
from both ends of the character list. -/
def trimL (l : List Char) : List Char :=
  ((l.dropWhile Char.isWhitespace).reverse.dropWhile Char.isWhitespace).reverse

/-- Trim of a Lean string, returning a string, as the JavaScript trim. -/
def jsTrim (s : String) : String := String.mk (trimL s.data)

/-- Helper for splitting a character list into maximal runs of
non-whitespace characters; acc holds the current run reversed. -/
def wordsAux : List Char → List Char → List (List Char)
  | [], acc => if acc = [] then [] else [acc.reverse]
  | c :: cs, acc =>
      if Char.isWhitespace c then
        if acc = [] then wordsAux cs [] else acc.reverse :: wordsAux cs []
      else wordsAux cs (c :: acc)

/-- Maximal whitespace-separated runs of a character list.  For a string
with no leading and no trailing whitespace this is exactly the result of
the JavaScript split on a whitespace-run pattern, except that the
JavaScript split of the empty string yields a list holding one empty
string; that case is handled at the call site. -/
def wordsL (l : List Char) : List (List Char) := wordsAux l []

/- ===== Premium status resolver (src/hooks/usePremium.ts) ===== -/

/-- Model of checkPremium inside the usePremium hook: the resolved flag
is the subscription-context boolean OR-ed with the test that the locally
persisted string (None when the key is absent) equals "true" exactly. -/
def checkPremium (subscriptionIsPremium : Bool) (stored : Option String) : Bool :=
  let localPremium :=
    match stored with
    | some v => v == "true"
    | none => false
  subscriptionIsPremium || localPremium

/- ===== Mini player (src/components/MiniPlayer.tsx) ===== -/

/-- Free preview limit of the mini player, in seconds. -/
def FREE_LIMIT : ℚ := 60

/-- State of the mini player that the handlers read and write: the
isPlaying flag, the stored current time, the upgrade prompt flag, and
the paused state of the underlying audio element. -/
structure PlayerState where
  isPlaying : Bool
  currentTime : ℚ
  showUpgradePrompt : Bool
  audioPaused : Bool
deriving DecidableEq

/-- Model of handleTimeUpdate: the reported time is stored unclamped via
setCurrentTime; then, when the session is not premium and the time has
reached FREE_LIMIT, the audio is paused, isPlaying is cleared and the
upgrade prompt flag is set. -/
def handleTimeUpdate (isPremium : Bool) (time : ℚ) (st : PlayerState) : PlayerState :=
  let st1 : PlayerState := { st with currentTime := time }
  if isPremium = false ∧ FREE_LIMIT ≤ time then
    { st1 with audioPaused := true, isPlaying := false, showUpgradePrompt := true }
  else
    st1

/-- Model of handleProgressClick: with a non-premium session whose
stored time has reached FREE_LIMIT the click is rejected unchanged;
otherwise the click fraction is scaled by the full episode duration for
premium sessions and by FREE_LIMIT for non-premium sessions, and the
result becomes the new current time of both the audio element and the
state. -/
def handleProgressClick (isPremium : Bool) (duration : ℚ) (frac : ℚ)
    (st : PlayerState) : PlayerState :=
  if isPremium = false ∧ FREE_LIMIT ≤ st.currentTime then st
  else
    let newTime := frac * (if isPremium then duration else FREE_LIMIT)
    { st with currentTime := newTime }

/- ===== Image URL pattern of validateForm (AddNewsModal.tsx) ===== -/

/-- Characters that the unflagged dot of a JavaScript pattern refuses to
match: the line terminators. -/
def isLineTerm (c : Char) : Bool :=
  c == '\n' || c == '\r' || c == '\u2028' || c == '\u2029'

/-- Recognized image extensions of the pattern alternation, as
character lists, already lowercase. -/
def imageExts : List (List Char) :=
  [String.data "jpg", String.data "jpeg", String.data "png",
   String.data "gif", String.data "webp"]

/-- Boolean test that p is a leading segment of l. -/
def hasPre : List Char → List Char → Bool
  | [], _ => true
  | _ :: _, [] => false
  | p :: ps, c :: cs => p == c && hasPre ps cs

/-- Test that the list begins with one of the image extensions; the rest
of the list is unconstrained, exactly as in the source pattern, which
has no end anchor after the alternation. -/
def extMatch (cs : List Char) : Bool :=
  imageExts.any (fun e => hasPre e cs)

/-- Test for a literal dot followed by an image extension at the head of
the list. -/
def dotExt : List Char → Bool
  | [] => false
  | c :: tail => c == '.' && extMatch tail

/-- Search for the dot-plus-extension part of the pattern: at least one
non-line-terminator character must be consumed before the dot, matching
the one-or-more dot quantifier of the source pattern. -/
def findDotExt : List Char → Bool
  | [] => false
  | c :: rest => !isLineTerm c && (dotExt rest || findDotExt rest)

/-- Lowercased character list of a string; the i flag of the source
pattern is modelled by lowercasing the subject once (all pattern
literals are already lowercase). -/
def lowerList (s : String) : List Char := s.data.map Char.toLower

/-- Model of the truthiness of formData.imageUrl.match with the source
pattern: an anchored scheme of http:// or https://, then at least one
non-line-terminator character, then a dot and an image extension, with
no constraint on what follows. -/
def imageUrlRegexAccepts (s : String) : Bool :=
  if hasPre (String.data "https://") (lowerList s) then
    findDotExt ((lowerList s).drop 8)
  else if hasPre (String.data "http://") (lowerList s) then
    findDotExt ((lowerList s).drop 7)
  else false

/-- Claim-side notion written from the words of the spec: the string
ends in one of the image extensions, compared case-insensitively. -/
def endsWithImageExt (s : String) : Bool :=
  imageExts.any (fun e => hasPre e.reverse (lowerList s).reverse)

/-- Claim-side predicate written from the words of the amended claim:
after lowercasing, the string decomposes into an http:// or https://
scheme, a nonempty block of non-line-terminator characters, a dot, an
image extension, and an arbitrary remainder. -/
def specImageUrl (s : String) : Prop :=
  ∃ (scheme mid e t : List Char),
    (scheme = String.data "http://" ∨ scheme = String.data "https://") ∧
    mid ≠ [] ∧ (∀ c ∈ mid, isLineTerm c = false) ∧
    e ∈ imageExts ∧
    lowerList s = scheme ++ (mid ++ '.' :: (e ++ t))

/- ===== Article submission workflow (AddNewsModal.tsx) ===== -/

/-- Form fields of the add-news modal. -/
structure FormData where
  title : String
  summary : String
  content : String
  imageUrl : String
  category : String
  source : String
  tags : String
deriving DecidableEq

/-- Model of calculateReadTime: the content is trimmed and split on
whitespace runs; the JavaScript split of the empty string yields one
empty word, hence the word count of empty trimmed content is one; the
read time is the ceiling of wordCount over 200, floored at one.  For
natural wordCount the ceiling of wordCount over 200 equals
(wordCount + 199) / 200 in truncated division. -/
def calculateReadTime (text : String) : Nat :=
  let t := trimL text.data
  let wordCount := if t = [] then 1 else (wordsL t).length
  max 1 ((wordCount + 199) / 200)

/-- Word count as the spec words it: the number of whitespace-separated
words of the trimmed content, with no special case for emptiness. -/
def specWordCount (text : String) : Nat := (wordsL (trimL text.data)).length

/-- Model of validateForm: the checks run in source order on the raw
field values (only the emptiness tests trim), and the first failing
check produces its message; None means the form passed. -/
def validateForm (f : FormData) : Option String :=
  if jsTrim f.title = "" then some "Title is required"
  else if f.title.length < 10 then some "Title must be at least 10 characters"
  else if jsTrim f.summary = "" then some "Summary is required"
  else if f.summary.length < 20 then some "Summary must be at least 20 characters"
  else if jsTrim f.content = "" then some "Content is required"
  else if f.content.length < 100 then some "Content must be at least 100 characters"
  else if jsTrim f.imageUrl = "" then some "Image URL is required"
  else if imageUrlRegexAccepts f.imageUrl = false then some "Please provide a valid image URL"
  else none

/-- Title check of the validator: trimmed title nonempty and raw length
at least ten. -/
abbrev titleOk (f : FormData) : Prop := jsTrim f.title ≠ "" ∧ 10 ≤ f.title.length

/-- Summary check of the validator: trimmed summary nonempty and raw
length at least twenty. -/
abbrev summaryOk (f : FormData) : Prop := jsTrim f.summary ≠ "" ∧ 20 ≤ f.summary.length

/-- Content check of the validator: trimmed content nonempty and raw
length at least one hundred. -/
abbrev contentOk (f : FormData) : Prop := jsTrim f.content ≠ "" ∧ 100 ≤ f.content.length

/-- Image check of the validator: trimmed image URL nonempty and the
pattern accepts the raw value. -/
abbrev imageOk (f : FormData) : Prop := jsTrim f.imageUrl ≠ "" ∧ imageUrlRegexAccepts f.imageUrl = true

/-- Message the validator reports when the title check fails. -/
def titleErr (f : FormData) : String :=
  if jsTrim f.title = "" then "Title is required" else "Title must be at least 10 characters"

/-- Message the validator reports when the summary check fails. -/
def summaryErr (f : FormData) : String :=
  if jsTrim f.summary = "" then "Summary is required" else "Summary must be at least 20 characters"

/-- Message the validator reports when the content check fails. -/
def contentErr (f : FormData) : String :=
  if jsTrim f.content = "" then "Content is required" else "Content must be at least 100 characters"

/-- Message the validator reports when the image check fails. -/
def imageErr (f : FormData) : String :=
  if jsTrim f.imageUrl = "" then "Image URL is required" else "Please provide a valid image URL"

/-- Helper for the comma split: acc holds the current part reversed. -/
def splitCommaAux : List Char → List Char → List String
  | [], acc => [String.mk acc.reverse]
  | c :: cs, acc =>
      if c = ',' then String.mk acc.reverse :: splitCommaAux cs []
      else splitCommaAux cs (c :: acc)

/-- Model of the JavaScript split on a comma separator: empty parts are
kept, and the empty string splits into one empty part. -/
def splitComma (s : String) : List String := splitCommaAux s.data []

/-- Model of the tags pipeline of handleSubmit: split on commas, trim
each part, keep the nonempty parts. -/
def tagsArrayOf (tags : String) : List String :=
  ((splitComma tags).map jsTrim).filter (fun t => t.length > 0)

/-- User fields of the auth context that handleSubmit reads; the
published-stories counter is None when the stored profile leaves the
field undefined. -/
structure UserModel where
  id : String
  fullName : String
  publishedStories : Option Nat
deriving DecidableEq

/-- Article record that handleSubmit posts to the backend: every text
field is the trimmed form value, the source falls back to the community
label when the trimmed value is empty, and the derived fields come from
calculateReadTime and the tags pipeline. -/
structure NewArticle where
  title : String
  summary : String
  content : String
  image_url : String
  category : String
  source : String
  author : String
  author_id : String
  language : String
  tags : List String
  is_premium : Bool
  read_time : Nat
  is_verified : Bool
deriving DecidableEq

/-- Construction of the posted record inside handleSubmit. -/
def newArticle (f : FormData) (user : UserModel) (currentLanguage : String) : NewArticle :=
  { title := jsTrim f.title
    summary := jsTrim f.summary
    content := jsTrim f.content
    image_url := jsTrim f.imageUrl
    category := f.category
    source := if jsTrim f.source = "" then "Cambliss Community" else jsTrim f.source
    author := user.fullName
    author_id := user.id
    language := currentLanguage
    tags := tagsArrayOf f.tags
    is_premium := false
    read_time := calculateReadTime f.content
    is_verified := false }

/-- Outcome of one fetch to the backend insert endpoint: success, a
non-2xx response carrying an optional body message, or a thrown network
error carrying an optional message. -/
inductive FetchResult where
  | ok : FetchResult
  | httpError : Option String → FetchResult
  | thrown : Option String → FetchResult
deriving DecidableEq

/-- Model of the JavaScript falsy-or on a message: an absent or empty
message falls back to the default. -/
def jsOr (s : Option String) (d : String) : String :=
  match s with
  | some m => if m = "" then d else m
  | none => d

/-- Observable outcome of one handleSubmit run: how many requests were
sent, the error message shown to the user, whether the form fields were
reset, whether the success flag was set, the points award with its
audit label, and the published-stories value written back to storage. -/
structure SubmitOutcome where
  requests : Nat
  errorMsg : Option String
  formCleared : Bool
  succeeded : Bool
  pointsAwarded : Option (Nat × String)
  persistedStories : Option Nat
deriving DecidableEq

/-- Model of handleSubmit: the auth guard, then validateForm, then the
configuration guard, each returning before any request; a single fetch
follows.  On success the fixed 50-point award with its audit label
fires, the stored counter is incremented only when the profile defines
it, and the success flag with the deferred reset fires.  A non-2xx
response throws the body message with its inner fallback and the catch
shows the thrown message with the outer fallback; a thrown fetch shows
its own message with the outer fallback.  No path repeats the fetch. -/
def handleSubmit (isAuthenticated : Bool) (f : FormData) (hasConfig : Bool)
    (fetchR : FetchResult) (user : UserModel) : SubmitOutcome :=
  if isAuthenticated = false then
    { requests := 0, errorMsg := some "You must be logged in to add news",
      formCleared := false, succeeded := false, pointsAwarded := none,
      persistedStories := none }
  else if (validateForm f).isSome then
    { requests := 0, errorMsg := validateForm f,
      formCleared := false, succeeded := false, pointsAwarded := none,
      persistedStories := none }
  else if hasConfig = false then
    { requests := 0, errorMsg := some "Database configuration not found",
      formCleared := false, succeeded := false, pointsAwarded := none,
      persistedStories := none }
  else
    match fetchR with
    | .ok =>
        { requests := 1, errorMsg := none, formCleared := true, succeeded := true,
          pointsAwarded := some (50, "Published news article"),
          persistedStories := user.publishedStories.map (· + 1) }
    | .httpError bodyMsg =>
        { requests := 1,
          errorMsg := some (jsOr (some (jsOr bodyMsg "Failed to publish article"))
            "Failed to publish article. Please try again."),
          formCleared := false, succeeded := false, pointsAwarded := none,
          persistedStories := none }
    | .thrown m =>
        { requests := 1,
          errorMsg := some (jsOr m "Failed to publish article. Please try again."),
          formCleared := false, succeeded := false, pointsAwarded := none,
          persistedStories := none }

/- ===== Concrete sample inputs used by witnesses ===== -/

/-- Character list of n single-letter words separated by single
spaces. -/
def mkWords : Nat → List Char
  | 0 => []
  | 1 => ['a']
  | n + 2 => 'a' :: ' ' :: mkWords (n + 1)

/-- Sample form whose fields pass every validator check. -/
def sampleForm : FormData :=
  { title := "Community garden opens"
    summary := "A new community garden opens downtown this weekend"
    content := String.mk (List.replicate 120 'a')
    imageUrl := "https://example.com/photo.jpg"
    category := "breaking"
    source := ""
    tags := "local, community" }

/-- Sample form whose title is too short for the validator. -/
def badForm : FormData :=
  { sampleForm with title := "short" }

/-- Sample authenticated user whose profile defines the
published-stories counter. -/
def sampleUser : UserModel :=
  { id := "u1", fullName := "Asha Rao", publishedStories := some 3 }

/-- Sample authenticated user whose stored profile leaves the
published-stories field undefined. -/
def userNoCount : UserModel :=
  { id := "u2", fullName := "Dev Nair", publishedStories := none }

/- ===== Helper lemmas ===== -/

theorem jsOr_collapse (m : Option String) :
    jsOr (some (jsOr m "Failed to publish article"))
      "Failed to publish article. Please try again."
      = jsOr m "Failed to publish article" := by
  cases m with
  | none => decide
  | some v =>
      by_cases hv : v = ""
      · subst hv
        decide
      · simp only [jsOr]
        rw [if_neg hv, if_neg hv]

/- ===== Claim theorems ===== -/

/-- C2: with a premium session, a time update at any position leaves the
paused state of the audio, the isPlaying flag and the upgrade-prompt
flag untouched; only the stored time changes. -/
theorem handleTimeUpdate_premium_no_gate (time : ℚ) (st : PlayerState) :
    (handleTimeUpdate true time st).audioPaused = st.audioPaused ∧
    (handleTimeUpdate true time st).isPlaying = st.isPlaying ∧
    (handleTimeUpdate true time st).showUpgradePrompt = st.showUpgradePrompt ∧
    (handleTimeUpdate true time st).currentTime = time := by
  simp [handleTimeUpdate]

/-- C1 counterexample: a non-premium time update reporting 75 seconds
stores 75 as the current position, so the stored position is not clamped
to the 60-second limit. -/
theorem handleTimeUpdate_clamp_cex :
    ¬ ((handleTimeUpdate false 75
        { isPlaying := true, currentTime := 0,
          showUpgradePrompt := false, audioPaused := false }).currentTime
      ≤ FREE_LIMIT) := by
  decide

/-- C1 amended: with a non-premium session, a time update reporting a
position at or past 60 seconds pauses the audio, clears isPlaying and
sets the upgrade-prompt flag; the stored position equals the reported
time unclamped, so it can exceed 60 seconds. -/
theorem handleTimeUpdate_free_gate (time : ℚ) (st : PlayerState)
    (h : FREE_LIMIT ≤ time) :
    (handleTimeUpdate false time st).audioPaused = true ∧
    (handleTimeUpdate false time st).isPlaying = false ∧
    (handleTimeUpdate false time st).showUpgradePrompt = true ∧
    (handleTimeUpdate false time st).currentTime = time := by
  simp [handleTimeUpdate, h]

/-- C1 witness: the amended gate theorem applied at the reported time of
75 seconds on a playing non-premium session. -/
theorem handleTimeUpdate_free_gate_witness :
    (handleTimeUpdate false 75
      { isPlaying := true, currentTime := 0,
        showUpgradePrompt := false, audioPaused := false }).audioPaused = true ∧
    (handleTimeUpdate false 75
      { isPlaying := true, currentTime := 0,
        showUpgradePrompt := false, audioPaused := false }).isPlaying = false ∧
    (handleTimeUpdate false 75
      { isPlaying := true, currentTime := 0,
        showUpgradePrompt := false, audioPaused := false }).showUpgradePrompt = true ∧
    (handleTimeUpdate false 75
      { isPlaying := true, currentTime := 0,
        showUpgradePrompt := false, audioPaused := false }).currentTime = 75 :=
  handleTimeUpdate_free_gate 75
    { isPlaying := true, currentTime := 0,
      showUpgradePrompt := false, audioPaused := false } (by decide)

/-- C3: the resolved premium flag is true exactly when the subscription
boolean is true or the persisted string equals "true"; any other stored
string, and an absent value, resolve to false. -/
theorem checkPremium_iff (sub : Bool) (stored : Option String) :
    checkPremium sub stored = true ↔ (sub = true ∨ stored = some "true") := by
  cases stored <;> cases sub <;> simp [checkPremium]

/-- C5: a seek by a fraction in the unit interval addresses the full
duration for a premium session and the 60-second limit for a non-premium
session, a non-premium seek made at or past the limit is rejected
unchanged, and the half-way seek of a non-premium 754-second episode
lands at 30 seconds. -/
theorem handleProgressClick_spec (duration frac : ℚ)
    (st : PlayerState) (h0 : 0 ≤ frac) (h1 : frac ≤ 1) :
    ((handleProgressClick true duration frac st).currentTime = frac * duration) ∧
    (st.currentTime < FREE_LIMIT →
      (handleProgressClick false duration frac st).currentTime = frac * FREE_LIMIT) ∧
    (FREE_LIMIT ≤ st.currentTime →
      handleProgressClick false duration frac st = st) ∧
    ((handleProgressClick false 754 (1/2)
      { isPlaying := true, currentTime := 0,
        showUpgradePrompt := false, audioPaused := false }).currentTime = 30) := by
  refine ⟨?_, ?_, ?_, ?_⟩
  · simp [handleProgressClick]
  · intro h2
    simp [handleProgressClick, not_le_of_gt h2]
  · intro h2
    simp [handleProgressClick, h2]
  · norm_num [handleProgressClick, FREE_LIMIT]

/-- C5 witness: the seek theorem applied at fraction one on a fresh
non-premium session with a 754-second episode. -/
theorem handleProgressClick_spec_witness :
    (0 : ℚ) ≤ 1 ∧ (1 : ℚ) ≤ 1 ∧
    (handleProgressClick false 754 1
      { isPlaying := true, currentTime := 0,
        showUpgradePrompt := false, audioPaused := false }).currentTime
      = 1 * FREE_LIMIT :=
  ⟨by decide, by decide,
    (handleProgressClick_spec 754 1
      { isPlaying := true, currentTime := 0,
        showUpgradePrompt := false, audioPaused := false }
      (by decide) (by decide)).2.1 (by decide)⟩

/-- C8: the computed read time equals the ceiling of the
whitespace-separated word count over 200, floored at one minute; a
400-word article computes to 2 minutes and a 1-word article to 1
minute.  The JavaScript split of empty trimmed content reports one word
where the spec counts zero, and the floor at one hides the difference. -/
theorem calculateReadTime_spec :
    (∀ s : String, calculateReadTime s = max 1 ((specWordCount s + 199) / 200)) ∧
    calculateReadTime (String.mk (mkWords 400)) = 2 ∧
    calculateReadTime "hello" = 1 := by
  refine ⟨?_, by decide, by decide⟩
  intro s
  unfold calculateReadTime specWordCount
  by_cases h : trimL s.data = []
  · rw [h]
    simp [wordsL, wordsAux]
  · simp [h]

/-- C9 counterexample: a successful submission by a user whose stored
profile leaves the published-stories field undefined awards the points
and signals success, yet writes no incremented counter back to
storage. -/
theorem handleSubmit_no_counter_cex :
    (handleSubmit true sampleForm true .ok userNoCount).succeeded = true ∧
    (handleSubmit true sampleForm true .ok userNoCount).pointsAwarded
      = some (50, "Published news article") ∧
    (handleSubmit true sampleForm true .ok userNoCount).persistedStories = none := by
  decide

/-- C9 amended: on a backend-acknowledged success of a validated
submission, exactly 50 points are awarded under the audit label
Published news article, success is signaled, one request was made, and
the persisted published-stories counter is incremented by one exactly
when the user profile already defines it, and left unwritten
otherwise. -/
theorem handleSubmit_success_spec (f : FormData) (user : UserModel)
    (h : validateForm f = none) :
    (handleSubmit true f true .ok user).pointsAwarded
      = some (50, "Published news article") ∧
    (handleSubmit true f true .ok user).succeeded = true ∧
    (handleSubmit true f true .ok user).requests = 1 ∧
    (∀ n, user.publishedStories = some n →
      (handleSubmit true f true .ok user).persistedStories = some (n + 1)) ∧
    (user.publishedStories = none →
      (handleSubmit true f true .ok user).persistedStories = none) := by
  have hv : (validateForm f).isSome = false := by
    rw [h]
    rfl
  refine ⟨by simp [handleSubmit, hv], by simp [handleSubmit, hv],
    by simp [handleSubmit, hv], ?_, ?_⟩
  · intro n hn
    simp [handleSubmit, hv, hn]
  · intro hn
    simp [handleSubmit, hv, hn]

/-- C9 witness: the success theorem applied to the sample form and the
sample user whose counter holds 3, giving a persisted counter of 4. -/
theorem handleSubmit_success_spec_witness :
    (handleSubmit true sampleForm true .ok sampleUser).pointsAwarded
      = some (50, "Published news article") ∧
    (handleSubmit true sampleForm true .ok sampleUser).persistedStories = some 4 :=
  ⟨(handleSubmit_success_spec sampleForm sampleUser (by decide)).1,
   (handleSubmit_success_spec sampleForm sampleUser (by decide)).2.2.2.1 3 rfl⟩

/-- C10: there is a form whose raw field lengths pass validation while
the posted record, built from the trimmed values, has a title shorter
than 10 characters, a summary shorter than 20 and content shorter than
100: padding each field with leading spaces reaches the raw thresholds
that validation measures, and the record trims the padding away. -/
theorem validateForm_untrimmed_gap :
    ∃ f : FormData, validateForm f = none ∧
      (newArticle f sampleUser "en").title.length < 10 ∧
      (newArticle f sampleUser "en").summary.length < 20 ∧
      (newArticle f sampleUser "en").content.length < 100 :=
  ⟨{ title := String.mk (List.replicate 9 ' ' ++ ['x'])
     summary := String.mk (List.replicate 19 ' ' ++ ['y'])
     content := String.mk (List.replicate 99 ' ' ++ ['z'])
     imageUrl := "http://a.b/c.jpg"
     category := "breaking"
     source := ""
     tags := "" }, by decide⟩

/-- C7: a submission that fails client-side validation sends no request;
a non-2xx backend response surfaces the body message, with a generic
fallback when the body message is absent or empty, after exactly one
request and with the form left populated; a thrown request surfaces its
own message with the generic retry fallback, after exactly one request
and with the form left populated. -/
theorem handleSubmit_error_spec (f : FormData) (user : UserModel)
    (hasConfig : Bool) (r : FetchResult) :
    ((validateForm f).isSome →
      (handleSubmit true f hasConfig r user).requests = 0) ∧
    (validateForm f = none →
      ∀ m, (handleSubmit true f true (.httpError m) user).requests = 1 ∧
        (handleSubmit true f true (.httpError m) user).errorMsg
          = some (jsOr m "Failed to publish article") ∧
        (handleSubmit true f true (.httpError m) user).formCleared = false) ∧
    (validateForm f = none →
      ∀ m, (handleSubmit true f true (.thrown m) user).requests = 1 ∧
        (handleSubmit true f true (.thrown m) user).errorMsg
          = some (jsOr m "Failed to publish article. Please try again.") ∧
        (handleSubmit true f true (.thrown m) user).formCleared = false) := by
  refine ⟨?_, ?_, ?_⟩
  · intro h
    simp [handleSubmit, h]
  · intro h m
    have hv : (validateForm f).isSome = false := by
      rw [h]
      rfl
    refine ⟨?_, ?_, ?_⟩ <;> simp [handleSubmit, hv, jsOr_collapse]
  · intro h m
    have hv : (validateForm f).isSome = false := by
      rw [h]
      rfl
    refine ⟨?_, ?_, ?_⟩ <;> simp [handleSubmit, hv]

/-- C7 witness: the error theorem applied to a form with a short title,
where no request is sent, and to the valid sample form with a non-2xx
response carrying a body message, which is surfaced after one
request. -/
theorem handleSubmit_error_spec_witness :
    (handleSubmit true badForm true .ok sampleUser).requests = 0 ∧
    (handleSubmit true sampleForm true (.httpError (some "duplicate key")) sampleUser).errorMsg
      = some (jsOr (some "duplicate key") "Failed to publish article") :=
  ⟨(handleSubmit_error_spec badForm sampleUser true .ok).1 (by decide),
   ((handleSubmit_error_spec sampleForm sampleUser true .ok).2.1
     (by decide) (some "duplicate key")).2.1⟩

/-- C6: the validator accepts exactly when the title, summary, content
and image checks all pass; on failure it reports the message of the
first failing check in that fixed order; the title length threshold
rejects 9 and passes 10, the summary threshold is 20, and the content
threshold rejects 99 and passes exactly 100. -/
theorem validateForm_spec (f : FormData) :
    (validateForm f = none ↔ (titleOk f ∧ summaryOk f ∧ contentOk f ∧ imageOk f)) ∧
    (¬ titleOk f → validateForm f = some (titleErr f)) ∧
    (titleOk f → ¬ summaryOk f → validateForm f = some (summaryErr f)) ∧
    (titleOk f → summaryOk f → ¬ contentOk f → validateForm f = some (contentErr f)) ∧
    (titleOk f → summaryOk f → contentOk f → ¬ imageOk f →
      validateForm f = some (imageErr f)) ∧
    (f.title.length = 9 → ¬ titleOk f) ∧
    (f.title.length = 10 → jsTrim f.title ≠ "" → titleOk f) ∧
    (f.summary.length = 19 → ¬ summaryOk f) ∧
    (f.summary.length = 20 → jsTrim f.summary ≠ "" → summaryOk f) ∧
    (f.content.length = 99 → ¬ contentOk f) ∧
    (f.content.length = 100 → jsTrim f.content ≠ "" → contentOk f) := by
  refine ⟨?_, ?_, ?_, ?_, ?_, ?_, ?_, ?_, ?_, ?_, ?_⟩
  · unfold validateForm
    split_ifs with h1 h2 h3 h4 h5 h6 h7 h8 <;>
      simp_all [titleOk, summaryOk, contentOk, imageOk, not_lt]
  · intro h
    rcases Decidable.not_and_iff_or_not.mp h with h1 | h1
    · simp only [Decidable.not_not] at h1
      simp [validateForm, titleErr, h1]
    · have h2 : f.title.length < 10 := by omega
      by_cases ht : jsTrim f.title = ""
      · simp [validateForm, titleErr, ht]
      · simp [validateForm, titleErr, ht, h2]
  · rintro ⟨ht, hlen⟩ h
    have hlen2 : ¬ f.title.length < 10 := by omega
    rcases Decidable.not_and_iff_or_not.mp h with h1 | h1
    · simp only [Decidable.not_not] at h1
      simp [validateForm, summaryErr, ht, hlen2, h1]
    · have h2 : f.summary.length < 20 := by omega
      by_cases hs : jsTrim f.summary = ""
      · simp [validateForm, summaryErr, ht, hlen2, hs]
      · simp [validateForm, summaryErr, ht, hlen2, hs, h2]
  · rintro ⟨ht, hlen⟩ ⟨hs, hslen⟩ h
    have hlen2 : ¬ f.title.length < 10 := by omega
    have hslen2 : ¬ f.summary.length < 20 := by omega
    rcases Decidable.not_and_iff_or_not.mp h with h1 | h1
    · simp only [Decidable.not_not] at h1
      simp [validateForm, contentErr, ht, hlen2, hs, hslen2, h1]
    · have h2 : f.content.length < 100 := by omega
      by_cases hc : jsTrim f.content = ""
      · simp [validateForm, contentErr, ht, hlen2, hs, hslen2, hc]
      · simp [validateForm, contentErr, ht, hlen2, hs, hslen2, hc, h2]
  · rintro ⟨ht, hlen⟩ ⟨hs, hslen⟩ ⟨hc, hclen⟩ h
    have hlen2 : ¬ f.title.length < 10 := by omega
    have hslen2 : ¬ f.summary.length < 20 := by omega
    have hclen2 : ¬ f.content.length < 100 := by omega
    rcases Decidable.not_and_iff_or_not.mp h with h1 | h1
    · simp only [Decidable.not_not] at h1
      simp [validateForm, imageErr, ht, hlen2, hs, hslen2, hc, hclen2, h1]
    · have h2 : imageUrlRegexAccepts f.imageUrl = false := by
        cases hx : imageUrlRegexAccepts f.imageUrl
        · rfl
        · exact absurd hx h1
      by_cases hi : jsTrim f.imageUrl = ""
      · simp [validateForm, imageErr, ht, hlen2, hs, hslen2, hc, hclen2, hi]
      · simp [validateForm, imageErr, ht, hlen2, hs, hslen2, hc, hclen2, hi, h2]
  · rintro h ⟨_, hlen⟩
    omega
  · intro h ht
    exact ⟨ht, by omega⟩
  · rintro h ⟨_, hlen⟩
    omega
  · intro h hs
    exact ⟨hs, by omega⟩
  · rintro h ⟨_, hlen⟩
    omega
  · intro h hc
    exact ⟨hc, by omega⟩

/-- C6 witness: the validator theorem applied to the sample form, whose
four checks pass, so validation accepts it. -/
theorem validateForm_spec_witness :
    validateForm sampleForm = none :=
  (validateForm_spec sampleForm).1.mpr (by decide)

/- ===== Characterization of the image URL pattern ===== -/

theorem hasPre_iff (p l : List Char) : hasPre p l = true ↔ ∃ t, l = p ++ t := by
  induction p generalizing l with
  | nil => exact ⟨fun _ => ⟨l, rfl⟩, fun _ => rfl⟩
  | cons a as ih =>
      cases l with
      | nil => simp [hasPre]
      | cons b bs =>
          simp only [hasPre, Bool.and_eq_true, beq_iff_eq, ih, List.cons_append,
            List.cons.injEq]
          constructor
          · rintro ⟨h, t, ht⟩
            exact ⟨t, h.symm, ht⟩
          · rintro ⟨t, h, ht⟩
            exact ⟨h.symm, t, ht⟩

theorem extMatch_iff (cs : List Char) :
    extMatch cs = true ↔ ∃ e t, e ∈ imageExts ∧ cs = e ++ t := by
  simp only [extMatch, List.any_eq_true, hasPre_iff]
  constructor
  · rintro ⟨e, he, t, ht⟩
    exact ⟨e, t, he, ht⟩
  · rintro ⟨e, t, he, ht⟩
    exact ⟨e, he, t, ht⟩

theorem dotExt_iff (cs : List Char) :
    dotExt cs = true ↔ ∃ e t, e ∈ imageExts ∧ cs = '.' :: (e ++ t) := by
  cases cs with
  | nil => simp [dotExt]
  | cons c tail =>
      simp only [dotExt, Bool.and_eq_true, beq_iff_eq, extMatch_iff, List.cons.injEq]
      constructor
      · rintro ⟨rfl, e, t, he, rfl⟩
        exact ⟨e, t, he, rfl, rfl⟩
      · rintro ⟨e, t, he, hc, htail⟩
        exact ⟨hc, e, t, he, htail⟩

theorem findDotExt_iff (l : List Char) :
    findDotExt l = true ↔
      ∃ mid e t, mid ≠ [] ∧ (∀ c ∈ mid, isLineTerm c = false) ∧
        e ∈ imageExts ∧ l = mid ++ '.' :: (e ++ t) := by
  induction l with
  | nil =>
      simp only [findDotExt, Bool.false_eq_true, false_iff]
      rintro ⟨mid, e, t, hmid, _, _, heq⟩
      cases mid with
      | nil => exact hmid rfl
      | cons m ms => simp at heq
  | cons c rest ih =>
      simp only [findDotExt, Bool.and_eq_true, Bool.or_eq_true, Bool.not_eq_true',
        dotExt_iff, ih]
      constructor
      · rintro ⟨hc, hcase⟩
        rcases hcase with ⟨e, t, he, rfl⟩ | ⟨mid, e, t, hmid, hall, he, rfl⟩
        · exact ⟨[c], e, t, by simp, by simpa using hc, he, rfl⟩
        · refine ⟨c :: mid, e, t, by simp, ?_, he, rfl⟩
          intro x hx
          rcases List.mem_cons.mp hx with rfl | hx
          · exact hc
          · exact hall x hx
      · rintro ⟨mid, e, t, hmid, hall, he, heq⟩
        cases mid with
        | nil => exact absurd rfl hmid
        | cons m ms =>
            rw [List.cons_append] at heq
            injection heq with h1 h2
            subst h1
            refine ⟨hall c (List.mem_cons_self c ms), ?_⟩
            cases ms with
            | nil =>
                exact Or.inl ⟨e, t, he, by simpa using h2⟩
            | cons y ys =>
                exact Or.inr ⟨y :: ys, e, t, List.cons_ne_nil y ys,
                  fun x hx => hall x (List.mem_cons_of_mem _ hx), he, h2⟩

/-- C4 counterexample: the pattern accepts a URL whose extension is
followed by a query string, so acceptance does not force the string to
end in an image extension. -/
theorem imageUrl_not_end_anchored_cex :
    imageUrlRegexAccepts "http://a.jpg?x=1" = true ∧
    endsWithImageExt "http://a.jpg?x=1" = false := by
  decide

/-- C4 amended: the check accepts a string exactly when, after
lowercasing, it starts with an http:// or https:// scheme followed by at
least one non-line-terminator character, a dot and one of the image
extensions jpg, jpeg, png, gif or webp; the characters after the
extension are unconstrained, so an accepted string need not end in the
extension. -/
theorem imageUrlRegexAccepts_iff (s : String) :
    imageUrlRegexAccepts s = true ↔ specImageUrl s := by
  unfold imageUrlRegexAccepts specImageUrl
  by_cases h1 : hasPre (String.data "https://") (lowerList s) = true
  · rw [if_pos h1]
    obtain ⟨t0, ht0⟩ := (hasPre_iff _ _).mp h1
    rw [ht0]
    have hdrop : (String.data "https://" ++ t0).drop 8 = t0 := rfl
    rw [hdrop, findDotExt_iff]
    constructor
    · rintro ⟨mid, e, t, hmid, hall, he, rfl⟩
      exact ⟨String.data "https://", mid, e, t, Or.inr rfl, hmid, hall, he, rfl⟩
    · rintro ⟨scheme, mid, e, t, hscheme, hmid, hall, he, heq⟩
      rcases hscheme with rfl | rfl
      · exfalso
        have hfalse : hasPre (String.data "https://")
            (String.data "http://" ++ (mid ++ '.' :: (e ++ t))) = false := rfl
        have htrue : hasPre (String.data "https://")
            (String.data "https://" ++ t0) = true := rfl
        rw [heq, hfalse] at htrue
        exact Bool.noConfusion htrue
      · exact ⟨mid, e, t, hmid, hall, he, List.append_cancel_left heq⟩
  · rw [if_neg h1]
    by_cases h2 : hasPre (String.data "http://") (lowerList s) = true
    · rw [if_pos h2]
      obtain ⟨t0, ht0⟩ := (hasPre_iff _ _).mp h2
      rw [ht0]
      have hdrop : (String.data "http://" ++ t0).drop 7 = t0 := rfl
      rw [hdrop, findDotExt_iff]
      constructor
      · rintro ⟨mid, e, t, hmid, hall, he, rfl⟩
        exact ⟨String.data "http://", mid, e, t, Or.inl rfl, hmid, hall, he, rfl⟩
      · rintro ⟨scheme, mid, e, t, hscheme, hmid, hall, he, heq⟩
        rcases hscheme with rfl | rfl
        · exact ⟨mid, e, t, hmid, hall, he, List.append_cancel_left heq⟩
        · exfalso
          apply h1
          rw [ht0, heq]
          exact (hasPre_iff _ _).mpr ⟨mid ++ '.' :: (e ++ t), rfl⟩
    · rw [if_neg h2]
      simp only [Bool.false_eq_true, false_iff]
      rintro ⟨scheme, mid, e, t, hscheme, hmid, hall, he, heq⟩
      rcases hscheme with rfl | rfl
      · exact h2 ((hasPre_iff _ _).mpr ⟨mid ++ '.' :: (e ++ t), heq⟩)
      · exact h1 ((hasPre_iff _ _).mpr ⟨mid ++ '.' :: (e ++ t), heq⟩)
